import Mathlib

/-!
# TOKEN-WATCHER: a shallow embedding of the monitoring-and-sweep engine

This file embeds the core of the LIGHTCHAIN-WATCHER server in Lean 4 and
proves properties of the embedded operations.

The embedded components are:

* `GasOptimizer` (server/services/gasOptimizer.ts): `getOptimalGasPrice`
  and its strategy table;
* `TokenSweeper` (server/services/tokenSweeper.ts): `sweepToken`, the
  `activeSweeps` lock map, `getTokenValueUSD` and the receipt-polling loop
  `monitorTransactionReceipt`;
* `TokenDetector` (server/services/tokenDetector.ts): `startMonitoring`,
  `schedulePeriodicScan`, `scanWalletForTokens`, `scanSpecificTokens`,
  `checkTradingStatus`, `addAndMonitorSpecificToken`,
  `handleNewTokenDetection` and `manualSweepToken`.

Modelling conventions:

* JavaScript numbers are modelled as exact rationals (`Rat`); `toFixed(n)`
  is modelled as ideal decimal rounding (`jsToFixed2`, `jsToFixed6`):
  round half up at the n-th decimal, which agrees with `toFixed` for the
  non-negative values arising here up to binary-double representation noise.
* The storage collaborator is `MemStorage` (server/storage.ts; its text is
  the document appended to shared/schema.ts).  Its JavaScript `Map`s are
  modelled as lists in insertion order carried in `SystemState`: the
  wallet-config map keyed by wallet address becomes an association list,
  the id-keyed maps become lists of records; `Map.set` of a fresh uuid is
  an append, `Map.set` of an existing id rewrites that record in place.
  `randomUUID` ids are drawn from the counter `nextId`.  `Date`-valued
  columns (`createdAt`, `completedAt`, `lastCheckedAt`) are real-time
  values outside the deterministic model and are not carried; the one
  exception is `detectedAt`, which `getTokenDetections` sorts by, modelled
  as a logical creation clock (the `nextId` counter value at creation,
  strictly increasing across record creations exactly as the wall-clock
  stamps are).
* Every external ledger query is read from a deterministic environment
  `Env` (balance per (wallet, token), transferability probe per token,
  token metadata, base fee, network load, transfer submission outcome).
* Asynchronous calls that the source awaits in sequence are modelled by
  sequential state passing; `setInterval` timers are modelled by their
  fire times (`tickFireTime`) and by a multiset of installed timers
  (`intervalTimers`).
* Broadcast callbacks (websocket pushes) are fire-and-forget and carry no
  engine state; they are not modelled.
-/

set_option linter.unusedVariables false

namespace TokenWatcher

/-- Urgency levels accepted by `sweepToken` and `getOptimalGasPrice`. -/
inductive Urgency where
  | low
  | medium
  | high
deriving DecidableEq, Repr

/-- Transaction status values used by the schema (`pending`, `completed`,
`failed`). -/
inductive TxStatus where
  | pending
  | completed
  | failed
deriving DecidableEq, Repr

/-- ERC-20 metadata returned by `web3Service.getTokenInfo`. -/
structure TokenInfo where
  name : String
  symbol : String
  decimals : Nat
deriving DecidableEq, Repr

/-- A wallet configuration row (shared/schema.ts, `walletConfigs`). -/
structure WalletConfig where
  walletAddress : String
  privateKey : String
  safeWalletAddress : String
  gasStrategy : String
  minTransferAmount : Rat
  autoSweepEnabled : Bool
  isActive : Bool
deriving DecidableEq, Repr

/-- A token-detection row (shared/schema.ts, `tokenDetections`).
`detectedAt` is the creation timestamp `MemStorage.createTokenDetection`
stamps with `new Date()`, modelled as the logical creation clock. -/
structure TokenDetection where
  id : Nat
  walletAddress : String
  tokenAddress : String
  tokenSymbol : String
  tokenName : String
  balance : Rat
  balanceUSD : Rat
  tradingEnabled : Bool
  detectedAt : Nat
deriving DecidableEq, Repr

/-- A transaction row (shared/schema.ts, `transactions`). -/
structure TransactionRec where
  id : Nat
  walletAddress : String
  tokenAddress : String
  tokenSymbol : String
  tokenName : String
  amount : Rat
  amountUSD : Rat
  status : TxStatus
  gasPrice : Rat
  txHash : Option String
  gasUsed : Option Rat
  blockNumber : Option Nat
deriving DecidableEq, Repr

/-- An activity row (shared/schema.ts, `activities`). -/
structure Activity where
  walletAddress : String
  type : String
  title : String
  status : String
deriving DecidableEq, Repr

/-- A transfer actually submitted to the ledger through
`web3Service.transferToken`. -/
structure SubmittedTransfer where
  walletAddress : String
  tokenAddress : String
  amount : Rat
  txHash : String
deriving DecidableEq, Repr

/-- The process state owned by the engine: the in-memory maps of the detector
(`monitoringWallets`, `knownTokens`, `specificTokensToMonitor`), the
the `activeSweeps` lock map of the sweeper, the `MemStorage` tables, the
multiset of installed recurring timers, and the ledger submissions made so
far.  `walletConfigs` is the `MemStorage` map keyed by wallet address, as
an association list; `detections`, `transactions` and `activities` are the
id-keyed maps in insertion order.  `intervalTimers` records one entry per
`setInterval` installed by `schedulePeriodicScan` and not yet cleared;
`submittedTransfers` is a ghost log of ledger submissions. -/
structure SystemState where
  monitoringWallets : List String
  intervalTimers : List String
  knownTokens : List (String × TokenInfo)
  specificTokens : List (String × List String)
  detections : List TokenDetection
  transactions : List TransactionRec
  activities : List Activity
  walletConfigs : List (String × WalletConfig)
  activeSweeps : List String
  submittedTransfers : List SubmittedTransfer
  nextId : Nat
deriving DecidableEq, Repr

/-- The deterministic environment standing for the ledger collaborator
(web3Service): balance per (wallet, token), the composite transferability
probe per token, token metadata, the current base fee in gwei, the sampled
network load, and the outcome of a transfer submission per (wallet, token). -/
structure Env where
  getBalance : String → String → Rat
  isTradingEnabled : String → Bool
  tokenInfo : String → TokenInfo
  baseGasPriceGwei : Rat
  networkLoad : Int
  transferResult : String → String → Except String String

/-- Ideal model of JavaScript `x.toFixed(2)` (read back as a number) for the
non-negative values arising here: round half up at the second decimal. -/
def jsToFixed2 (q : Rat) : Rat := (⌊q * 100 + 1/2⌋ : Int) / 100

/-- Ideal model of JavaScript `x.toFixed(6)` (read back as a number) for the
non-negative values arising here: round half up at the sixth decimal. -/
def jsToFixed6 (q : Rat) : Rat := (⌊q * 1000000 + 1/2⌋ : Int) / 1000000

/-- JavaScript `toLowerCase`, modelled characterwise (the addresses handled
here are ASCII, where `toLowerCase` is the per-character lowercase map). -/
def jsToLower (s : String) : String := String.mk (s.data.map Char.toLower)

/-! ## GasOptimizer (server/services/gasOptimizer.ts) -/

/-- A named gas strategy (`GasStrategy` in gasOptimizer.ts). -/
structure GasStrategy where
  name : String
  multiplier : Rat
  description : String
deriving DecidableEq, Repr

/-- The `standard` strategy preset. -/
def stdStrategy : GasStrategy :=
  { name := "Standard", multiplier := 1.0, description := "30-50 gwei - Normal priority" }

/-- The strategy table installed by the `GasOptimizer` constructor. -/
def strategies : List (String × GasStrategy) :=
  [("slow", { name := "Slow", multiplier := 0.8, description := "20-30 gwei - Lower priority" }),
   ("standard", stdStrategy),
   ("fast", { name := "Fast", multiplier := 1.3, description := "50+ gwei - High priority" })]

/-- `GasOptimizer.getOptimalGasPrice`, with the awaited base fee and the
sampled `currentNetworkLoad` passed explicitly.  Mirrors the source: strategy
lookup with fallback to `standard`, sequential multiplications for urgency
and congestion, `Math.max` with the 1 gwei floor, and `toFixed(2)`. -/
def getOptimalGasPrice (baseGasPriceGwei : Rat) (networkLoad : Int)
    (strategy : String) (urgency : Urgency) : Rat :=
  let selectedStrategy := (strategies.lookup strategy).getD stdStrategy
  let g1 := baseGasPriceGwei * selectedStrategy.multiplier
  let g2 :=
    match urgency with
    | .high => g1 * 1.2
    | .low => g1 * 0.9
    | .medium => g1
  let g3 :=
    if 80 < networkLoad then g2 * 1.1
    else if networkLoad < 30 then g2 * 0.95
    else g2
  let g4 := max g3 1
  jsToFixed2 g4

/-- Spec-side description of the urgency scaling (high 1.2, low 0.9,
medium 1.0), used to compare `getOptimalGasPrice` with the specified
product form. -/
def urgencyMultiplier : Urgency → Rat
  | .high => 1.2
  | .low => 0.9
  | .medium => 1

/-- Spec-side description of the congestion adjustment (1.1 when load > 80,
0.95 when load < 30, else 1.0). -/
def congestionAdjustment (networkLoad : Int) : Rat :=
  if 80 < networkLoad then 1.1
  else if networkLoad < 30 then 0.95
  else 1

/-- The multiplier of the strategy selected for a given name (with the
fallback to `standard` for unknown names). -/
def strategyMultiplier (strategy : String) : Rat :=
  ((strategies.lookup strategy).getD stdStrategy).multiplier

theorem jsToFixed2_ge_one {q : Rat} (h : 1 ≤ q) : 1 ≤ jsToFixed2 q := by
  unfold jsToFixed2
  rw [le_div_iff₀ (by norm_num : (0:Rat) < 100)]
  have h100 : ((100 : Int) : Rat) ≤ q * 100 + 1/2 := by push_cast; nlinarith
  exact_mod_cast Int.le_floor.mpr h100

/-- `getOptimalGasPrice` equals the specified product, rounded to two
decimals, with the 1 gwei floor applied before rounding. -/
theorem getOptimalGasPrice_eq_product (base : Rat) (load : Int)
    (strategy : String) (urgency : Urgency) :
    getOptimalGasPrice base load strategy urgency =
      jsToFixed2 (max (base * strategyMultiplier strategy * urgencyMultiplier urgency *
        congestionAdjustment load) 1) := by
  unfold getOptimalGasPrice strategyMultiplier urgencyMultiplier congestionAdjustment
  cases urgency <;> simp only [] <;> split <;> (try split) <;> ring_nf

/-! ## Storage collaborator (MemStorage, server/storage.ts — the document
appended to shared/schema.ts) -/

/-- `MemStorage.getWalletConfig`: `this.walletConfigs.get(walletAddress)` —
the map is keyed by wallet address (`createWalletConfig` does
`this.walletConfigs.set(config.walletAddress, walletConfig)`), so the model
is an association-list lookup by that key. -/
def getWalletConfig (s : SystemState) (walletAddress : String) : Option WalletConfig :=
  s.walletConfigs.lookup walletAddress

/-- Insert a detection into a list already sorted by `detectedAt`
descending, before the first element whose `detectedAt` is not larger
(the comparator step of a stable sort). -/
def insertByDetectedAtDesc (d : TokenDetection) :
    List TokenDetection → List TokenDetection
  | [] => [d]
  | e :: es =>
      if e.detectedAt ≤ d.detectedAt then d :: e :: es
      else e :: insertByDetectedAtDesc d es

/-- Stable sort by `detectedAt` descending, modelling the comparator
`(a, b) => (b.detectedAt?.getTime() || 0) - (a.detectedAt?.getTime() || 0)`
of `MemStorage.getTokenDetections` (JavaScript `Array.sort` is stable). -/
def sortByDetectedAtDesc : List TokenDetection → List TokenDetection
  | [] => []
  | d :: ds => insertByDetectedAtDesc d (sortByDetectedAtDesc ds)

/-- `MemStorage.getTokenDetections(walletAddress)`: all detection records
of one wallet, sorted by `detectedAt` descending (newest first). -/
def getTokenDetections (s : SystemState) (walletAddress : String) : List TokenDetection :=
  sortByDetectedAtDesc (s.detections.filter (fun d => d.walletAddress == walletAddress))

/-- `MemStorage.updateTokenDetection(id, updates)`: merge the updates into
the record with that id and store it back under the same key (a record
rewrite in place; ids of other records untouched; a missing id changes
nothing).  The `lastCheckedAt := new Date()` stamp is a real-time value the
model does not carry. -/
def updateDetection (ds : List TokenDetection) (id : Nat)
    (f : TokenDetection → TokenDetection) : List TokenDetection :=
  ds.map (fun d => if d.id == id then f d else d)

/-- `MemStorage.updateTransaction(id, updates)`: merge the updates into the
record with that id and store it back under the same key (a missing id
changes nothing).  The conditional `completedAt := new Date()` stamp is a
real-time value the model does not carry. -/
def updateTransaction (ts : List TransactionRec) (id : Nat)
    (f : TransactionRec → TransactionRec) : List TransactionRec :=
  ts.map (fun t => if t.id == id then f t else t)

/-- `MemStorage.createActivity`: store a fresh record under a fresh uuid —
an append to the insertion-ordered table.  The `description`, `metadata`,
`id` and `createdAt` columns play no part in any claim and are not
carried. -/
def addActivity (s : SystemState) (walletAddress ty title status : String) : SystemState :=
  { s with activities := s.activities ++
      [{ walletAddress := walletAddress, type := ty, title := title, status := status }] }

/-! ## TokenSweeper (server/services/tokenSweeper.ts) -/

/-- The key of the `activeSweeps` lock map:
`` `${walletAddress}-${tokenAddress}` ``. -/
def sweepKey (walletAddress tokenAddress : String) : String :=
  walletAddress ++ "-" ++ tokenAddress

/-- The mock price table of `TokenSweeper.getTokenValueUSD` (keys are the
lowercased addresses of USDC, LINK, UNI, WBTC, AAVE). -/
def mockPrices : List (String × Rat) :=
  [("0xa0b86a33e6441b56c6b15fb8b0beaddd8f1af6c4", 1.00),
   ("0x514910771af9ca656af840dff83e8264ecf986ca", 14.50),
   ("0x1f9840a85d5af5bf1d1762f925bdaddc4201f984", 6.80),
   ("0x2260fac5e5542a773aa44fbcfedf7c193bc2c599", 45000),
   ("0x7fc66500c84a76ad7e9c93437bfc5ac33e2ddae9", 85.30)]

/-- `TokenSweeper.getTokenValueUSD`: look the lowercased address up in the
mock table (price 0 when absent) and multiply by the balance. -/
def getTokenValueUSD (tokenAddress : String) (balance : Rat) : Rat :=
  let price := (mockPrices.lookup (jsToLower tokenAddress)).getD 0
  balance * price

/-- The `finally` step of `sweepToken`: `this.activeSweeps.delete(sweepKey)`. -/
def releaseLock (s : SystemState) (key : String) : SystemState :=
  { s with activeSweeps := s.activeSweeps.erase key }

/-- The `catch` branch of `sweepToken`: look for a `pending` transaction of
this (wallet, token), and if one exists mark it `failed` and append a
`transfer_failed` activity. -/
def failPendingTransaction (s : SystemState) (walletAddress tokenAddress tokenSymbol : String) :
    SystemState :=
  match s.transactions.find? (fun tx =>
      tx.status == TxStatus.pending && tx.walletAddress == walletAddress &&
      tx.tokenAddress == tokenAddress) with
  | some tx =>
      addActivity
        { s with transactions :=
            updateTransaction s.transactions tx.id (fun t => { t with status := .failed }) }
        walletAddress "transfer_failed" (tokenSymbol ++ " Transfer Failed") "failed"
  | none => s

/-- `TokenSweeper.sweepToken`.  Returns the transaction hash of a
synchronously successful submission, or `none` (`null` in the source) for the
lock-held guard, the below-threshold abort and every caught error.  Control
flow mirrors the source: lock guard, lock set, configuration load (missing or
inactive throws into the catch branch), fiat threshold check, gas price,
transaction record and `transfer_started` activity, ledger submission
(success updates the record to `completed` and appends a
`transfer_completed` activity; failure throws into the catch branch), and
lock release in the `finally` step on every path. -/
def sweepToken (env : Env) (s : SystemState)
    (walletAddress tokenAddress tokenSymbol tokenName : String)
    (balance : Rat) (urgency : Urgency) : Option String × SystemState :=
  let key := sweepKey walletAddress tokenAddress
  if s.activeSweeps.contains key then
    (none, s)
  else
    let s1 : SystemState := { s with activeSweeps := key :: s.activeSweeps }
    match getWalletConfig s1 walletAddress with
    | none => (none, releaseLock (failPendingTransaction s1 walletAddress tokenAddress tokenSymbol) key)
    | some walletConfig =>
      if !walletConfig.isActive then
        (none, releaseLock (failPendingTransaction s1 walletAddress tokenAddress tokenSymbol) key)
      else
        let balanceUSD := getTokenValueUSD tokenAddress balance
        if balanceUSD < walletConfig.minTransferAmount then
          (none, releaseLock s1 key)
        else
          let gasPrice := getOptimalGasPrice env.baseGasPriceGwei env.networkLoad
            walletConfig.gasStrategy urgency
          let txId := s1.nextId
          let s2 : SystemState :=
            { s1 with
              transactions := s1.transactions ++
                [{ id := txId, walletAddress := walletAddress, tokenAddress := tokenAddress,
                   tokenSymbol := tokenSymbol, tokenName := tokenName, amount := balance,
                   amountUSD := jsToFixed2 balanceUSD, status := .pending,
                   gasPrice := gasPrice, txHash := none, gasUsed := none, blockNumber := none }],
              nextId := txId + 1 }
          let s3 := addActivity s2 walletAddress "transfer_started"
            (tokenSymbol ++ " Auto-Sweep Started") "pending"
          match env.transferResult walletAddress tokenAddress with
          | .ok txHash =>
              let s4 : SystemState :=
                { s3 with
                  transactions := updateTransaction s3.transactions txId
                    (fun t => { t with txHash := some txHash, status := .completed }),
                  submittedTransfers := s3.submittedTransfers ++
                    [{ walletAddress := walletAddress, tokenAddress := tokenAddress,
                       amount := balance, txHash := txHash }] }
              let s5 := addActivity s4 walletAddress "transfer_completed"
                (tokenSymbol ++ " Transfer Completed") "completed"
              (some txHash, releaseLock s5 key)
          | .error _ =>
              (none, releaseLock (failPendingTransaction s3 walletAddress tokenAddress tokenSymbol) key)

/-- `TokenSweeper.emergencyStop`: clear the lock entries of one wallet
(keys starting with its address), or all of them. -/
def emergencyStop (s : SystemState) (walletAddress : Option String) : SystemState :=
  match walletAddress with
  | some w => { s with activeSweeps := s.activeSweeps.filter (fun k => !(k.startsWith w)) }
  | none => { s with activeSweeps := [] }

/-! ### Receipt polling (TokenSweeper.monitorTransactionReceipt) -/

/-- A transaction receipt returned by the ledger. -/
structure Receipt where
  gasUsed : Rat
  gasPrice : Rat
  blockNumber : Nat
  status : Bool
deriving DecidableEq, Repr

/-- The update `monitorTransactionReceipt` applies to the transaction record
when a receipt arrives: the gas cost in ETH (`toFixed(6)`), the confirming
block, and `completed` or `failed` from the on-chain status flag. -/
def applyReceipt (tx : TransactionRec) (r : Receipt) : TransactionRec :=
  { tx with
    gasUsed := some (jsToFixed6 (r.gasUsed * r.gasPrice / 1000000000000000000)),
    blockNumber := some r.blockNumber,
    status := if r.status then .completed else .failed }

/-- The bounded attempt count of the polling loop (`maxAttempts = 60`). -/
def maxAttempts : Nat := 60

/-- One `checkReceipt` invocation and its rescheduling chain: query the
oracle (the k-th receipt query); a receipt updates the record and stops;
otherwise increment `attempts` and reschedule only while
`attempts < maxAttempts`.  Returns the total number of receipt queries made
and the final record.  The 10 s initial delay and the 5 s polling interval
only place these queries in time and are not represented. -/
def checkReceipt (oracle : Nat → Option Receipt) (tx : TransactionRec)
    (attempts : Nat) : Nat × TransactionRec :=
  match oracle attempts with
  | some r => (attempts + 1, applyReceipt tx r)
  | none =>
      if h : attempts + 1 < maxAttempts then
        checkReceipt oracle tx (attempts + 1)
      else
        (attempts + 1, tx)
termination_by maxAttempts - attempts
decreasing_by omega

/-- `TokenSweeper.monitorTransactionReceipt`, starting at attempt 0. -/
def monitorTransactionReceipt (oracle : Nat → Option Receipt)
    (tx : TransactionRec) : Nat × TransactionRec :=
  checkReceipt oracle tx 0

/-! ## TokenDetector (server/services/tokenDetector.ts) -/

/-- `Map.set` on an association list: overwrite the binding when the key is
present, append it otherwise. -/
def mapSet {β : Type} (l : List (String × β)) (k : String) (v : β) : List (String × β) :=
  if l.any (fun p => p.1 == k) then l.map (fun p => if p.1 == k then (k, v) else p)
  else l ++ [(k, v)]

/-- The `tokenPrices` map of the detector.  `updateTokenPrices` fills it with the
same five (lowercased address, price) entries as the sweeper map in
`getTokenValueUSD` table, so it is defined as that table. -/
def tokenPrices : List (String × Rat) := mockPrices

/-- `TokenDetector.calculateUSDValue`: price of the lowercased address
(0 when unknown) times the balance. -/
def calculateUSDValue (tokenAddress : String) (balance : Rat) : Rat :=
  let price := (tokenPrices.lookup (jsToLower tokenAddress)).getD 0
  balance * price

/-- `TokenDetector.handleNewTokenDetection`: create the detection record
(with `tradingEnabled := false`) and append a `token_detected` activity. -/
def handleNewTokenDetection (s : SystemState)
    (walletAddress tokenAddress tokenName tokenSymbol : String) (balance : Rat) : SystemState :=
  let balanceUSD := calculateUSDValue tokenAddress balance
  let s1 : SystemState :=
    { s with
      detections := s.detections ++
        [{ id := s.nextId, walletAddress := walletAddress, tokenAddress := tokenAddress,
           tokenSymbol := tokenSymbol, tokenName := tokenName, balance := balance,
           balanceUSD := jsToFixed2 balanceUSD, tradingEnabled := false,
           detectedAt := s.nextId }],
      nextId := s.nextId + 1 }
  addActivity s1 walletAddress "token_detected" (tokenSymbol ++ " Token Detected") "completed"

/-- The balance-bookkeeping update `updateTokenDetection(id, { balance,
balanceUSD })` used by the scans. -/
def updateDetectionBalance (s : SystemState) (id : Nat) (tokenAddress : String)
    (balance : Rat) : SystemState :=
  { s with detections := (updateDetection s.detections id (fun d =>
      { d with
        balance := balance
        balanceUSD := jsToFixed2 (calculateUSDValue tokenAddress balance) })) }

/-- `TokenDetector.checkTradingStatus`: probe transferability; when the
stored detection has the flag still false and the probe is true, set the
flag, append a `trading_enabled` activity, and — when the wallet
configuration has `autoSweepEnabled` — re-read the balance and invoke
`sweepToken` with high urgency.  Returns the new state and the number of
`sweepToken` invocations made. -/
def checkTradingStatus (env : Env) (s : SystemState)
    (walletAddress tokenAddress tokenSymbol : String) : SystemState × Nat :=
  let tradingEnabled := env.isTradingEnabled tokenAddress
  match (getTokenDetections s walletAddress).find?
      (fun d => (jsToLower d.tokenAddress) == (jsToLower tokenAddress)) with
  | none => (s, 0)
  | some detection =>
    if !detection.tradingEnabled && tradingEnabled then
      let s1 : SystemState :=
        { s with detections := (updateDetection s.detections detection.id
            (fun d => { d with tradingEnabled := true })) }
      let s2 := addActivity s1 walletAddress "trading_enabled"
        (tokenSymbol ++ " Trading Enabled") "active"
      match getWalletConfig s2 walletAddress with
      | some walletConfig =>
        if walletConfig.autoSweepEnabled then
          let currentBalance := env.getBalance walletAddress tokenAddress
          ((sweepToken env s2 walletAddress tokenAddress tokenSymbol detection.tokenName
              currentBalance .high).2, 1)
        else (s2, 0)
      | none => (s2, 0)
    else (s, 0)

/-- The body of the `for` loop in `TokenDetector.scanSpecificTokens` for one
monitored token address (already lowercased in the watch-list): cache the
token metadata, read the balance, create or update the detection, probe
transferability, and on a false-to-true transition set the flag, append the
activity, and invoke `sweepToken` with high urgency when the configuration
has `autoSweepEnabled`.  In the update branch the source keeps the stale
pre-update `detection` object; so does this definition.  Returns the new
state and the number of `sweepToken` invocations made. -/
def scanSpecificTokenStep (env : Env) (s : SystemState)
    (walletAddress tokenAddress : String) : SystemState × Nat :=
  let s0 := if (s.knownTokens.lookup tokenAddress).isNone then
      { s with knownTokens := mapSet s.knownTokens tokenAddress (env.tokenInfo tokenAddress) }
    else s
  let info := (s0.knownTokens.lookup tokenAddress).getD (env.tokenInfo tokenAddress)
  let balance := env.getBalance walletAddress tokenAddress
  if 0 < balance then
    let d0 := (getTokenDetections s0 walletAddress).find?
      (fun d => (jsToLower d.tokenAddress) == tokenAddress)
    let s1 := match d0 with
      | none => handleNewTokenDetection s0 walletAddress tokenAddress info.name info.symbol balance
      | some d => updateDetectionBalance s0 d.id tokenAddress balance
    let detection : Option TokenDetection := match d0 with
      | none => (getTokenDetections s1 walletAddress).find?
          (fun d => (jsToLower d.tokenAddress) == tokenAddress)
      | some d => some d
    let tradingEnabled := env.isTradingEnabled tokenAddress
    match detection with
    | some d =>
      if !d.tradingEnabled && tradingEnabled then
        let s2 : SystemState :=
          { s1 with detections := (updateDetection s1.detections d.id
              (fun x => { x with tradingEnabled := true })) }
        let s3 := addActivity s2 walletAddress "trading_enabled"
          (info.symbol ++ " Trading Enabled!") "active"
        match getWalletConfig s3 walletAddress with
        | some walletConfig =>
          if walletConfig.autoSweepEnabled then
            ((sweepToken env s3 walletAddress tokenAddress info.symbol info.name
                balance .high).2, 1)
          else (s3, 0)
        | none => (s3, 0)
      else (s1, 0)
    | none => (s1, 0)
  else (s0, 0)

/-- `TokenDetector.scanSpecificTokens`: run the per-token step over the
explicit watch-list of the wallet, accumulating the sweep-invocation count. -/
def scanSpecificTokens (env : Env) (s : SystemState) (walletAddress : String) :
    SystemState × Nat :=
  let specific := (s.specificTokens.lookup walletAddress).getD []
  specific.foldl (fun acc t =>
    let r := scanSpecificTokenStep env acc.1 walletAddress t
    (r.1, acc.2 + r.2)) (s, 0)

/-- `TokenDetector.scanWalletForTokens`: with the detection list snapshot
taken before the loop, walk the known-token catalog; for each token with a
positive balance create the detection if the snapshot lacks it (else update
the balance when it changed), then run `checkTradingStatus`. -/
def scanWalletForTokens (env : Env) (s : SystemState) (walletAddress : String) :
    SystemState × Nat :=
  let existingDetections := getTokenDetections s walletAddress
  let existingTokenAddresses := existingDetections.map (fun d => (jsToLower d.tokenAddress))
  s.knownTokens.foldl (fun acc kt =>
    let tokenAddress := kt.1
    let info := kt.2
    let balance := env.getBalance walletAddress tokenAddress
    if 0 < balance then
      let s1 :=
        if !(existingTokenAddresses.contains tokenAddress) then
          handleNewTokenDetection acc.1 walletAddress tokenAddress info.name info.symbol balance
        else
          match existingDetections.find? (fun d => (jsToLower d.tokenAddress) == tokenAddress) with
          | some d => if d.balance == balance then acc.1
                      else updateDetectionBalance acc.1 d.id tokenAddress balance
          | none => acc.1
      let r := checkTradingStatus env s1 walletAddress tokenAddress info.symbol
      (r.1, acc.2 + r.2)
    else acc) (s, 0)

/-- `TokenDetector.addSpecificTokenToMonitor`: lowercase, deduplicated
insertion into the explicit watch-list of the wallet. -/
def addSpecificTokenToMonitor (s : SystemState) (walletAddress tokenAddress : String) :
    SystemState :=
  let tokens := (s.specificTokens.lookup walletAddress).getD []
  if tokens.contains (jsToLower tokenAddress) then s
  else { s with specificTokens :=
      (mapSet s.specificTokens walletAddress (tokens ++ [(jsToLower tokenAddress)])) }

/-- `TokenDetector.schedulePeriodicScan`: install one more recurring
15-second interval timer for the wallet.  The timer stays installed until
one of its ticks observes that the wallet is no longer monitored. -/
def schedulePeriodicScan (s : SystemState) (walletAddress : String) : SystemState :=
  { s with intervalTimers := s.intervalTimers ++ [walletAddress] }

/-- `TokenDetector.startMonitoring`: add the lowercased wallet to the
monitored set, run one immediate scan, then install a recurring timer. -/
def startMonitoring (env : Env) (s : SystemState) (walletAddress : String) : SystemState :=
  let s1 : SystemState :=
    { s with monitoringWallets :=
        if s.monitoringWallets.contains (jsToLower walletAddress) then s.monitoringWallets
        else s.monitoringWallets ++ [(jsToLower walletAddress)] }
  let s2 := (scanWalletForTokens env s1 walletAddress).1
  schedulePeriodicScan s2 walletAddress

/-- `TokenDetector.stopMonitoring`: remove the lowercased wallet from the
monitored set (timers clear themselves on their next tick). -/
def stopMonitoring (s : SystemState) (walletAddress : String) : SystemState :=
  { s with monitoringWallets :=
      s.monitoringWallets.filter (fun w => w != (jsToLower walletAddress)) }

/-- The number of recurring scan timers currently installed for a wallet. -/
def timerCount (s : SystemState) (walletAddress : String) : Nat :=
  s.intervalTimers.count walletAddress

/-- The trading-status probe at the end of
`TokenDetector.addAndMonitorSpecificToken` (the part of its body after the
detection record has been ensured, with `s1` the state at that point):
probe transferability and, when it is already true, invoke `sweepToken`
(high urgency) if the configuration has `autoSweepEnabled`; the method then
returns true.  The `Nat` component counts the `sweepToken` invocations
made. -/
def probeRegisteredToken (env : Env) (s1 : SystemState)
    (walletAddress tokenAddress : String) (info : TokenInfo) (balance : Rat) :
    Bool × SystemState × Nat :=
  let tradingEnabled := env.isTradingEnabled tokenAddress
  if tradingEnabled then
    match getWalletConfig s1 walletAddress with
    | some walletConfig =>
      if walletConfig.autoSweepEnabled then
        (true, (sweepToken env s1 walletAddress tokenAddress info.symbol info.name
            balance .high).2, 1)
      else (true, s1, 0)
    | none => (true, s1, 0)
  else (true, s1, 0)

/-- `TokenDetector.addAndMonitorSpecificToken`: register the token, cache
its metadata, probe the balance at once; with a positive balance create the
detection if missing and run the trading-status probe
(`probeRegisteredToken`); return whether a positive balance was found.
Returns also the number of `sweepToken` invocations made. -/
def addAndMonitorSpecificToken (env : Env) (s : SystemState)
    (walletAddress tokenAddress : String) : Bool × SystemState × Nat :=
  let sA := addSpecificTokenToMonitor s walletAddress tokenAddress
  let info := env.tokenInfo tokenAddress
  let sB : SystemState := { sA with knownTokens := mapSet sA.knownTokens (jsToLower tokenAddress) info }
  let balance := env.getBalance walletAddress tokenAddress
  if 0 < balance then
    let d0 := (getTokenDetections sB walletAddress).find?
      (fun d => (jsToLower d.tokenAddress) == (jsToLower tokenAddress))
    let s1 := match d0 with
      | none => handleNewTokenDetection sB walletAddress tokenAddress info.name info.symbol balance
      | some _ => sB
    probeRegisteredToken env s1 walletAddress tokenAddress info balance
  else (false, sB, 0)

/-- `TokenDetector.manualSweepToken`: look the detection up; when it exists
the source body runs `await this.triggerAutoSweep(walletAddress,
detection.id)` — but no method `triggerAutoSweep` is defined anywhere in the
class or the repository, so in JavaScript this expression throws
`TypeError: this.triggerAutoSweep is not a function` before any sweep can
start; the embedding returns that throw as an `Except.error`.  When no
detection exists the method does nothing. -/
def manualSweepToken (s : SystemState) (walletAddress tokenAddress : String) :
    Except String SystemState :=
  match (getTokenDetections s walletAddress).find?
      (fun d => (jsToLower d.tokenAddress) == (jsToLower tokenAddress)) with
  | some _ => .error "TypeError: this.triggerAutoSweep is not a function"
  | none => .ok s

/-! ### Scheduler timing (TokenDetector.schedulePeriodicScan)

`schedulePeriodicScan` drives the per-wallet scan with
`setInterval(async () => { ... }, 15000)`.  A JavaScript interval timer
fires its callback at every multiple of the period; an `async` callback
that is still awaiting does not delay or suppress the next fire.  So tick
`n` of one timer starts at `15000 * (n + 1)` ms after installation,
independent of how long any scan takes. -/

/-- The period of the recurring scan (`15000` ms in the source). -/
def scanIntervalMs : Nat := 15000

/-- The start time (ms after timer installation) of the n-th tick of the
recurring scan timer: `setInterval` fires at fixed multiples of the period
regardless of whether the previous asynchronous callback has completed. -/
def tickFireTime (n : Nat) : Nat := scanIntervalMs * (n + 1)

/-- The scan started by tick `n` is running at time `t`, when scans take
`dur` ms per tick. -/
def scanRunning (dur : Nat → Nat) (n t : Nat) : Prop :=
  tickFireTime n ≤ t ∧ t < tickFireTime n + dur n

/-- Ticks `m` and `n` of the timer of one wallet overlap in time. -/
def ticksOverlap (dur : Nat → Nat) (m n : Nat) : Prop :=
  ∃ t, scanRunning dur m t ∧ scanRunning dur n t

/-! ## Concrete fixtures for witnesses and counterexamples -/

/-- A wallet configuration used in concrete evaluations. -/
def sampleConfig : WalletConfig :=
  { walletAddress := "0xwallet", privateKey := "0xkey", safeWalletAddress := "0xsafe",
    gasStrategy := "standard", minTransferAmount := 10, autoSweepEnabled := true,
    isActive := true }

/-- The empty engine state. -/
def emptyState : SystemState :=
  { monitoringWallets := [], intervalTimers := [], knownTokens := [], specificTokens := [],
    detections := [], transactions := [], activities := [], walletConfigs := [],
    activeSweeps := [], submittedTransfers := [], nextId := 0 }

/-- A state holding one active wallet configuration. -/
def sampleState : SystemState :=
  { emptyState with walletConfigs := [("0xwallet", sampleConfig)] }

/-- A detection record used in concrete evaluations. -/
def sampleDetection : TokenDetection :=
  { id := 0, walletAddress := "0xwallet", tokenAddress := "0xtoken", tokenSymbol := "TKN",
    tokenName := "Token", balance := 5, balanceUSD := 0, tradingEnabled := false,
    detectedAt := 0 }

/-- A pending transaction record used in concrete evaluations. -/
def sampleTx : TransactionRec :=
  { id := 0, walletAddress := "0xwallet", tokenAddress := "0xtoken", tokenSymbol := "TKN",
    tokenName := "Token", amount := 5, amountUSD := 0, status := .pending, gasPrice := 30,
    txHash := some "0xhash", gasUsed := none, blockNumber := none }

/-- An environment in which every balance is zero and no token is
transferable. -/
def zeroEnv : Env :=
  { getBalance := fun _ _ => 0, isTradingEnabled := fun _ => false,
    tokenInfo := fun _ => { name := "Token", symbol := "TKN", decimals := 18 },
    baseGasPriceGwei := 30, networkLoad := 50,
    transferResult := fun _ _ => .ok "0xhash" }

/-- A state in which a sweep for ("0xwallet", "0xtoken") is in progress. -/
def lockedState : SystemState :=
  { sampleState with activeSweeps := [sweepKey "0xwallet" "0xtoken"] }

/-! ## C1: the SweepLock guard -/

/-- C1: if a sweep is already in progress for the (wallet, asset) key — the
`activeSweeps` lock map holds it — `sweepToken` for the same key returns
`null` and leaves the state exactly as it was: no transaction record, no
activity record, no ledger submission, no lock change.  Hence of any set of
overlapping `sweepToken` calls for one key, only the call that acquired the
lock can reach the submission step; every other call is this no-op. -/
theorem sweepToken_lock_held_noop (env : Env) (s : SystemState)
    (walletAddress tokenAddress tokenSymbol tokenName : String)
    (balance : Rat) (urgency : Urgency)
    (h : sweepKey walletAddress tokenAddress ∈ s.activeSweeps) :
    sweepToken env s walletAddress tokenAddress tokenSymbol tokenName balance urgency =
      (none, s) := by
  have hc : s.activeSweeps.contains (sweepKey walletAddress tokenAddress) = true := by
    simpa using h
  unfold sweepToken
  rw [if_pos hc]

/-- C1 witness: the guard no-op evaluated at a concrete locked state. -/
theorem sweepToken_lock_held_noop_witness :
    sweepKey "0xwallet" "0xtoken" ∈ lockedState.activeSweeps ∧
    sweepToken zeroEnv lockedState "0xwallet" "0xtoken" "TKN" "Token" 5 .high =
      (none, lockedState) :=
  ⟨by decide,
   sweepToken_lock_held_noop zeroEnv lockedState "0xwallet" "0xtoken" "TKN" "Token" 5 .high
     (by decide)⟩

/-! ## C3 and C10: the fiat threshold guard -/

/-- Helper: with the lock free or held, a configured active wallet and a
fiat value strictly below the threshold, `sweepToken` is a complete no-op:
the below-threshold branch releases the just-taken lock and returns `null`
before any record is created. -/
theorem sweepToken_below_threshold (env : Env) (s : SystemState)
    (walletAddress tokenAddress tokenSymbol tokenName : String)
    (balance : Rat) (urgency : Urgency) (cfg : WalletConfig)
    (hcfg : getWalletConfig s walletAddress = some cfg)
    (hactive : cfg.isActive = true)
    (hvalue : getTokenValueUSD tokenAddress balance < cfg.minTransferAmount) :
    sweepToken env s walletAddress tokenAddress tokenSymbol tokenName balance urgency =
      (none, s) := by
  unfold sweepToken
  by_cases hc : s.activeSweeps.contains (sweepKey walletAddress tokenAddress) = true
  · rw [if_pos hc]
  · rw [if_neg hc]
    dsimp only
    have hcfg1 : getWalletConfig
        { s with activeSweeps := sweepKey walletAddress tokenAddress :: s.activeSweeps }
        walletAddress = some cfg := hcfg
    rw [hcfg1]
    simp only [hactive, Bool.not_true, Bool.false_eq_true, if_false, if_pos hvalue]
    simp [releaseLock]

/-- C3: a `sweepToken` call whose amount has fiat-estimated value strictly
below the minimum-transfer threshold of the wallet configuration returns `null`
without submitting a transfer and without creating any transaction record —
the state is left exactly as it was. -/
theorem sweepToken_below_threshold_noop (env : Env) (s : SystemState)
    (walletAddress tokenAddress tokenSymbol tokenName : String)
    (balance : Rat) (urgency : Urgency) (cfg : WalletConfig)
    (hcfg : getWalletConfig s walletAddress = some cfg)
    (hactive : cfg.isActive = true)
    (hvalue : getTokenValueUSD tokenAddress balance < cfg.minTransferAmount) :
    sweepToken env s walletAddress tokenAddress tokenSymbol tokenName balance urgency =
      (none, s) :=
  sweepToken_below_threshold env s walletAddress tokenAddress tokenSymbol tokenName
    balance urgency cfg hcfg hactive hvalue

/-- C3 witness: a dust sweep (5 LINK-priced tokens would exceed the
threshold, so use an unknown token valued at 0 dollars — value 0 < 10). -/
theorem sweepToken_below_threshold_noop_witness :
    getWalletConfig sampleState "0xwallet" = some sampleConfig ∧
    sampleConfig.isActive = true ∧
    getTokenValueUSD "0xtoken" 5 < sampleConfig.minTransferAmount ∧
    sweepToken zeroEnv sampleState "0xwallet" "0xtoken" "TKN" "Token" 5 .high =
      (none, sampleState) :=
  have hvalue : getTokenValueUSD "0xtoken" 5 < sampleConfig.minTransferAmount := by
    unfold getTokenValueUSD sampleConfig
    rw [(by decide : mockPrices.lookup (jsToLower "0xtoken") = none)]
    norm_num
  ⟨by decide, by decide, hvalue,
   sweepToken_below_threshold_noop zeroEnv sampleState "0xwallet" "0xtoken" "TKN" "Token"
     5 .high sampleConfig (by decide) (by decide) hvalue⟩

/-- C10: the fiat valuation is the hard-coded five-entry table `mockPrices`;
for any token address outside the table the value is 0, so for any wallet
whose configured minimum-transfer threshold is positive, `sweepToken` always
aborts below-threshold: it returns `null`, changes no state, and never
submits a transfer. -/
theorem sweepToken_unknown_token_never_submits (env : Env) (s : SystemState)
    (walletAddress tokenAddress tokenSymbol tokenName : String)
    (balance : Rat) (urgency : Urgency) (cfg : WalletConfig)
    (hunknown : mockPrices.lookup (jsToLower tokenAddress) = none)
    (hcfg : getWalletConfig s walletAddress = some cfg)
    (hactive : cfg.isActive = true)
    (hmin : 0 < cfg.minTransferAmount) :
    getTokenValueUSD tokenAddress balance = 0 ∧
    sweepToken env s walletAddress tokenAddress tokenSymbol tokenName balance urgency =
      (none, s) := by
  have hzero : getTokenValueUSD tokenAddress balance = 0 := by
    unfold getTokenValueUSD
    simp [hunknown]
  refine ⟨hzero, ?_⟩
  exact sweepToken_below_threshold env s walletAddress tokenAddress tokenSymbol tokenName
    balance urgency cfg hcfg hactive (by rw [hzero]; exact hmin)

/-- C10 witness: a concrete token address outside the mock price table. -/
theorem sweepToken_unknown_token_never_submits_witness :
    mockPrices.lookup ((jsToLower "0xtoken")) = none ∧
    (0 : Rat) < sampleConfig.minTransferAmount ∧
    getTokenValueUSD "0xtoken" 1000000 = 0 ∧
    sweepToken zeroEnv sampleState "0xwallet" "0xtoken" "TKN" "Token" 1000000 .high =
      (none, sampleState) := by
  have h := sweepToken_unknown_token_never_submits zeroEnv sampleState "0xwallet" "0xtoken"
    "TKN" "Token" 1000000 .high sampleConfig (by decide) (by decide) (by decide)
    (by unfold sampleConfig; norm_num)
  exact ⟨by decide, by unfold sampleConfig; norm_num, h.1, h.2⟩

/-! ## C7: the gas price formula -/

/-- C7 counterexample: the returned price is `toFixed(2)` of the product,
not the product itself.  At base fee 30.005 gwei, strategy `standard`,
medium urgency and load 50 every multiplier is 1, so the claimed value is
30.005 — but `getOptimalGasPrice` returns 30.01.  This refutes the claim
that the result *equals* base fee times the three multipliers. -/
theorem getOptimalGasPrice_rounding_counterexample :
    getOptimalGasPrice 30.005 50 "standard" Urgency.medium ≠
      30.005 * strategyMultiplier "standard" * urgencyMultiplier Urgency.medium *
        congestionAdjustment 50 := by
  rw [getOptimalGasPrice_eq_product]
  have hsm : strategyMultiplier "standard" = (1.0 : Rat) := rfl
  rw [hsm]
  unfold urgencyMultiplier congestionAdjustment
  norm_num
  unfold jsToFixed2
  rw [(by norm_num : (6001 : Rat) / 200 * 100 + 1/2 = ((3001 : Int) : Rat)), Int.floor_intCast]
  norm_num

/-- C7 (amended): for fixed base fee, strategy, urgency and congestion
level, `getOptimalGasPrice` is deterministic and equals base fee times the
strategy multiplier times the urgency multiplier (high 1.2, low 0.9,
medium 1.0) times the congestion adjustment (1.1 when load > 80, 0.95 when
load < 30, else 1.0), with the product first floored at 1 gwei and then
rounded to two decimals (`toFixed(2)`); the result is never below 1 gwei. -/
theorem getOptimalGasPrice_spec (base : Rat) (load : Int)
    (strategy : String) (urgency : Urgency) :
    getOptimalGasPrice base load strategy urgency =
      jsToFixed2 (max (base * strategyMultiplier strategy * urgencyMultiplier urgency *
        congestionAdjustment load) 1) ∧
    urgencyMultiplier .high = 1.2 ∧ urgencyMultiplier .low = 0.9 ∧
    urgencyMultiplier .medium = 1 ∧
    congestionAdjustment load =
      (if 80 < load then 1.1 else if load < 30 then 0.95 else 1) ∧
    1 ≤ getOptimalGasPrice base load strategy urgency := by
  refine ⟨getOptimalGasPrice_eq_product base load strategy urgency, rfl, rfl, rfl, rfl, ?_⟩
  rw [getOptimalGasPrice_eq_product base load strategy urgency]
  exact jsToFixed2_ge_one (le_max_right _ _)

/-! ## C8: bounded confirmation polling -/

theorem checkReceipt_fst_le (oracle : Nat → Option Receipt) (tx : TransactionRec)
    (attempts : Nat) (h : attempts < maxAttempts) :
    (checkReceipt oracle tx attempts).1 ≤ maxAttempts := by
  unfold checkReceipt
  cases hq : oracle attempts with
  | some r => simp only [hq]; omega
  | none =>
    simp only [hq]
    split
    · next h2 => exact checkReceipt_fst_le oracle tx (attempts + 1) h2
    · next h2 =>
      simp only []
      omega
termination_by maxAttempts - attempts
decreasing_by simp [maxAttempts] at *; omega

theorem checkReceipt_all_none (oracle : Nat → Option Receipt) (tx : TransactionRec)
    (hnone : ∀ k, oracle k = none) (attempts : Nat) (h : attempts < maxAttempts) :
    checkReceipt oracle tx attempts = (maxAttempts, tx) := by
  unfold checkReceipt
  simp only [hnone attempts]
  split
  · next h2 => exact checkReceipt_all_none oracle tx hnone (attempts + 1) h2
  · next h2 =>
    have : attempts + 1 = maxAttempts := by omega
    rw [this]
termination_by maxAttempts - attempts
decreasing_by simp [maxAttempts] at *; omega

/-- C8: confirmation polling performs at most `maxAttempts = 60` receipt
queries (after the fixed 10 s initial delay, at the fixed 5 s interval) and
terminates; when no receipt ever arrives it stops after exactly 60 queries
with the transaction record left exactly in its last known state — no
status change, no further automatic retry. -/
theorem monitorTransactionReceipt_bounded (oracle : Nat → Option Receipt)
    (tx : TransactionRec) :
    (monitorTransactionReceipt oracle tx).1 ≤ maxAttempts ∧
    ((∀ k, oracle k = none) → monitorTransactionReceipt oracle tx = (maxAttempts, tx)) := by
  constructor
  · exact checkReceipt_fst_le oracle tx 0 (by simp [maxAttempts])
  · intro hnone
    exact checkReceipt_all_none oracle tx hnone 0 (by simp [maxAttempts])

/-- C8 witness: the polling loop run against an oracle that never returns a
receipt makes exactly 60 queries and leaves the concrete record unchanged. -/
theorem monitorTransactionReceipt_bounded_witness :
    (monitorTransactionReceipt (fun _ => none) sampleTx).1 ≤ maxAttempts ∧
    monitorTransactionReceipt (fun _ => none) sampleTx = (maxAttempts, sampleTx) := by
  have h := monitorTransactionReceipt_bounded (fun _ => none) sampleTx
  exact ⟨h.1, h.2 (fun _ => rfl)⟩

/-! ## C4: scheduler ticks for one wallet -/

/-- C4 counterexample: the claim says two scheduled scan ticks for the same
wallet never overlap.  But `schedulePeriodicScan` re-arms `setInterval`
unconditionally: tick 1 fires at 30000 ms even when the scan started by
tick 0 at 15000 ms takes 20000 ms, so at t = 30000 ms both scans are
running.  This proves the negation of the claim at that concrete input. -/
theorem schedulerTicks_can_overlap : ticksOverlap (fun _ => 20000) 0 1 := by
  refine ⟨30000, ⟨?_, ?_⟩, ?_, ?_⟩ <;> norm_num [scanRunning, tickFireTime, scanIntervalMs]

/-- C4 (amended): ticks of the scan timer of one wallet fire at the fixed
15-second interval regardless of whether the previous scan has completed —
the next tick is neither skipped nor deferred.  Two ticks m < n overlap
exactly when the scan started at tick m outlasts the `15000 * (n - m)` ms
separating them (and the scan of tick n takes any positive time); in particular
any scan longer than 15 s overlaps the next tick. -/
theorem ticksOverlap_iff (dur : Nat → Nat) (m n : Nat) (h : m < n) :
    ticksOverlap dur m n ↔ scanIntervalMs * (n - m) < dur m ∧ 0 < dur n := by
  unfold ticksOverlap scanRunning tickFireTime scanIntervalMs
  constructor
  · rintro ⟨t, ⟨h1, h2⟩, h3, h4⟩
    constructor <;> omega
  · rintro ⟨hd, hdn⟩
    exact ⟨15000 * (n + 1), ⟨by omega, by omega⟩, by omega, by omega⟩

/-- C4 witness: the overlap criterion instantiated at ticks 0 and 1 with a
20-second scan. -/
theorem ticksOverlap_iff_witness :
    (0 : Nat) < 1 ∧
    (ticksOverlap (fun _ => 20000) 0 1 ↔ scanIntervalMs * (1 - 0) < 20000 ∧ 0 < 20000) :=
  ⟨by decide, ticksOverlap_iff (fun _ => 20000) 0 1 (by decide)⟩

/-! ## C6: manualSweepToken -/

/-- A state holding one active wallet configuration and one detection
record for ("0xwallet", "0xtoken"). -/
def detectedState : SystemState := { sampleState with detections := [sampleDetection] }

/-- C6 (code bug): when a detection exists, `manualSweepToken` does not
forward it to `TokenSweeper.sweepToken` — its body calls
`this.triggerAutoSweep(walletAddress, detection.id)`, a method defined
nowhere in the repository, so the call throws a TypeError before any sweep
can start (and the method accepts no urgency parameter at all).  When no
detection exists it does nothing, as claimed.  Evaluated at a concrete
failing input: a wallet with one existing detection. -/
theorem manualSweepToken_throws_on_existing_detection :
    manualSweepToken detectedState "0xwallet" "0xtoken" =
      .error "TypeError: this.triggerAutoSweep is not a function" ∧
    manualSweepToken emptyState "0xwallet" "0xtoken" = .ok emptyState :=
  ⟨rfl, rfl⟩

/-! ## Frame lemmas: fields each operation leaves unchanged -/

/-- The fields of the state that `sweepToken` never writes. -/
def sweepFrame (s s' : SystemState) : Prop :=
  s'.monitoringWallets = s.monitoringWallets ∧ s'.intervalTimers = s.intervalTimers ∧
  s'.knownTokens = s.knownTokens ∧ s'.specificTokens = s.specificTokens ∧
  s'.detections = s.detections ∧ s'.walletConfigs = s.walletConfigs

/-- The fields of the state that the detector scan path never writes. -/
def detectorFrame (s s' : SystemState) : Prop :=
  s'.monitoringWallets = s.monitoringWallets ∧ s'.intervalTimers = s.intervalTimers ∧
  s'.walletConfigs = s.walletConfigs ∧ s'.specificTokens = s.specificTokens

theorem sweepToken_frame (env : Env) (s : SystemState) (w t sym nm : String)
    (bal : Rat) (u : Urgency) :
    sweepFrame s (sweepToken env s w t sym nm bal u).2 := by
  unfold sweepToken failPendingTransaction releaseLock addActivity
  dsimp only
  repeat' split
  all_goals simp [sweepFrame]

theorem detectorFrame_refl (s : SystemState) : detectorFrame s s :=
  ⟨rfl, rfl, rfl, rfl⟩

theorem detectorFrame_trans {s1 s2 s3 : SystemState}
    (h12 : detectorFrame s1 s2) (h23 : detectorFrame s2 s3) : detectorFrame s1 s3 :=
  ⟨h23.1.trans h12.1, h23.2.1.trans h12.2.1, h23.2.2.1.trans h12.2.2.1,
   h23.2.2.2.trans h12.2.2.2⟩

theorem detectorFrame_of_sweep {s s2 : SystemState} (h : detectorFrame s s2)
    (env : Env) (w t sym nm : String) (bal : Rat) (u : Urgency) :
    detectorFrame s ((sweepToken env s2 w t sym nm bal u).2) := by
  obtain ⟨hm, hi, hk, hsp, hd, hw⟩ := sweepToken_frame env s2 w t sym nm bal u
  exact detectorFrame_trans h ⟨hm, hi, hw, hsp⟩

theorem handleNewTokenDetection_frame (s : SystemState)
    (w t nm sym : String) (bal : Rat) :
    detectorFrame s (handleNewTokenDetection s w t nm sym bal) := by
  simp [detectorFrame, handleNewTokenDetection, addActivity]

theorem updateDetectionBalance_frame (s : SystemState) (id : Nat) (t : String) (bal : Rat) :
    detectorFrame s (updateDetectionBalance s id t bal) := by
  simp [detectorFrame, updateDetectionBalance]

theorem checkTradingStatus_frame (env : Env) (s : SystemState) (w t sym : String) :
    detectorFrame s (checkTradingStatus env s w t sym).1 := by
  unfold checkTradingStatus
  dsimp only
  split
  · exact detectorFrame_refl s
  · split
    · split
      · split
        · apply detectorFrame_of_sweep
          simp [detectorFrame, addActivity]
        · simp [detectorFrame, addActivity]
      · simp [detectorFrame, addActivity]
    · exact detectorFrame_refl s

theorem foldl_preserves {α β : Type} (P : α → Prop) (f : α → β → α)
    (hf : ∀ a b, P a → P (f a b)) : ∀ (l : List β) (a : α), P a → P (l.foldl f a)
  | [], _, ha => ha
  | b :: l, a, ha => foldl_preserves P f hf l (f a b) (hf a b ha)

theorem scanWalletForTokens_frame (env : Env) (s : SystemState) (w : String) :
    detectorFrame s (scanWalletForTokens env s w).1 := by
  unfold scanWalletForTokens
  dsimp only
  apply foldl_preserves (fun (acc : SystemState × Nat) => detectorFrame s acc.1)
  · intro acc kt hacc
    dsimp only
    split
    · apply detectorFrame_trans ?_ (checkTradingStatus_frame env _ w kt.1 kt.2.symbol)
      split
      · exact detectorFrame_trans hacc (handleNewTokenDetection_frame _ w kt.1 kt.2.name kt.2.symbol _)
      · split
        · split
          · exact hacc
          · exact detectorFrame_trans hacc (updateDetectionBalance_frame _ _ kt.1 _)
        · exact hacc
    · exact hacc
  · exact detectorFrame_refl s

/-! ## C5: startMonitoring -/

theorem startMonitoring_monitoring (env : Env) (s : SystemState) (w : String) :
    (startMonitoring env s w).monitoringWallets =
      (if s.monitoringWallets.contains (jsToLower w) then s.monitoringWallets
       else s.monitoringWallets ++ [jsToLower w]) := by
  unfold startMonitoring schedulePeriodicScan
  dsimp only
  exact (scanWalletForTokens_frame env _ w).1

theorem startMonitoring_timerCount (env : Env) (s : SystemState) (w : String) :
    timerCount (startMonitoring env s w) w = timerCount s w + 1 := by
  unfold startMonitoring schedulePeriodicScan timerCount
  dsimp only
  rw [(scanWalletForTokens_frame env _ w).2.1]
  simp

/-- C5 counterexample: `startMonitoring` is not idempotent in its timer
effect — calling it twice for the same wallet on the empty state leaves two
installed recurring scan timers, refuting the claim that a repeated call
does not leave two concurrent recurring scan timers for the same wallet. -/
theorem startMonitoring_two_timers :
    timerCount
      (startMonitoring zeroEnv (startMonitoring zeroEnv emptyState "0xwallet") "0xwallet")
      "0xwallet" = 2 := by decide

/-- C5 (amended): `startMonitoring` adds the lowercased wallet to the
monitored set idempotently, but it does not restart the existing interval:
every call installs one additional recurring scan timer, so a second call
for an already-monitored wallet leaves the monitored set unchanged and two
concurrent recurring timers installed (each timer clears itself only when a
tick observes the wallet deregistered). -/
theorem startMonitoring_effect (env : Env) (s : SystemState) (w : String) :
    (startMonitoring env s w).monitoringWallets =
      (if s.monitoringWallets.contains (jsToLower w) then s.monitoringWallets
       else s.monitoringWallets ++ [jsToLower w]) ∧
    timerCount (startMonitoring env s w) w = timerCount s w + 1 ∧
    (startMonitoring env (startMonitoring env s w) w).monitoringWallets =
      (startMonitoring env s w).monitoringWallets ∧
    timerCount (startMonitoring env (startMonitoring env s w) w) w = timerCount s w + 2 := by
  refine ⟨startMonitoring_monitoring env s w, startMonitoring_timerCount env s w, ?_, ?_⟩
  · rw [startMonitoring_monitoring env (startMonitoring env s w) w,
      startMonitoring_monitoring env s w]
    by_cases h : jsToLower w ∈ s.monitoringWallets
    · have hc : s.monitoringWallets.contains (jsToLower w) = true := by simpa using h
      simp [hc, h]
    · have hc : s.monitoringWallets.contains (jsToLower w) = false := by simpa using h
      simp [hc, h]
  · rw [startMonitoring_timerCount env (startMonitoring env s w) w,
      startMonitoring_timerCount env s w]

/-! ## C2: monotonicity of the transferability flag -/

/-- Between two detection tables: every record whose flag is true still has
a record with the same id and the flag true afterwards. -/
def detMono (l l' : List TokenDetection) : Prop :=
  ∀ d ∈ l, d.tradingEnabled = true → ∃ d' ∈ l', d'.id = d.id ∧ d'.tradingEnabled = true

theorem detMono_refl (l : List TokenDetection) : detMono l l :=
  fun d hd ht => ⟨d, hd, rfl, ht⟩

theorem detMono_trans {a b c : List TokenDetection}
    (h1 : detMono a b) (h2 : detMono b c) : detMono a c := by
  intro d hd ht
  obtain ⟨d', hd', hid, ht'⟩ := h1 d hd ht
  obtain ⟨d'', hd'', hid', ht''⟩ := h2 d' hd' ht'
  exact ⟨d'', hd'', hid'.trans hid, ht''⟩

theorem detMono_append (l l₂ : List TokenDetection) : detMono l (l ++ l₂) :=
  fun d hd ht => ⟨d, List.mem_append_left _ hd, rfl, ht⟩

theorem detMono_update (l : List TokenDetection) (id : Nat)
    (f : TokenDetection → TokenDetection)
    (hid : ∀ x, (f x).id = x.id)
    (hf : ∀ x, x.tradingEnabled = true → (f x).tradingEnabled = true) :
    detMono l (updateDetection l id f) := by
  intro d hd ht
  refine ⟨if (d.id == id) = true then f d else d, ?_, ?_, ?_⟩
  · unfold updateDetection
    have h := List.mem_map_of_mem (fun x => if x.id == id then f x else x) hd
    simpa using h
  · split
    · exact hid d
    · rfl
  · split
    · exact hf d ht
    · exact ht

theorem getTokenDetections_knownTokens (s : SystemState) (x : List (String × TokenInfo))
    (w : String) :
    getTokenDetections { s with knownTokens := x } w = getTokenDetections s w := rfl

theorem checkTradingStatus_mono (env : Env) (s : SystemState) (w t sym : String) :
    detMono s.detections (checkTradingStatus env s w t sym).1.detections := by
  unfold checkTradingStatus
  dsimp only
  split
  · exact detMono_refl _
  · split
    · split
      · split
        · rw [(sweepToken_frame env _ w t sym _ _ .high).2.2.2.2.1]
          exact detMono_update _ _ _ (fun x => rfl) (fun x _ => rfl)
        · exact detMono_update _ _ _ (fun x => rfl) (fun x _ => rfl)
      · exact detMono_update _ _ _ (fun x => rfl) (fun x _ => rfl)
    · exact detMono_refl _

theorem handleNewTokenDetection_mono (s : SystemState) (w t nm sym : String) (bal : Rat) :
    detMono s.detections (handleNewTokenDetection s w t nm sym bal).detections := by
  unfold handleNewTokenDetection addActivity
  dsimp only
  exact detMono_append _ _

theorem updateDetectionBalance_mono (s : SystemState) (id : Nat) (t : String) (bal : Rat) :
    detMono s.detections (updateDetectionBalance s id t bal).detections := by
  unfold updateDetectionBalance
  exact detMono_update _ _ _ (fun x => rfl) (fun x hx => hx)

/-- Setting the flag of one record to true preserves monotonicity. -/
theorem detMono_set_true {l l' : List TokenDetection} (h : detMono l l') (id : Nat) :
    detMono l (updateDetection l' id (fun x => { x with tradingEnabled := true })) :=
  detMono_trans h (detMono_update l' id _ (fun _ => rfl) (fun _ _ => rfl))

theorem detMono_cast {l l' : List TokenDetection} (h : l = l') : detMono l l' :=
  h ▸ detMono_refl l

theorem addSpecificTokenToMonitor_detections (s : SystemState) (w t : String) :
    (addSpecificTokenToMonitor s w t).detections = s.detections := by
  unfold addSpecificTokenToMonitor
  dsimp only
  split <;> rfl

theorem scanSpecificTokenStep_mono (env : Env) (s : SystemState) (w t : String) :
    detMono s.detections (scanSpecificTokenStep env s w t).1.detections := by
  unfold scanSpecificTokenStep
  dsimp only
  repeat' split
  all_goals
    first
    | exact detMono_refl _
    | exact handleNewTokenDetection_mono _ w t _ _ _
    | exact updateDetectionBalance_mono _ _ t _
    | exact detMono_set_true (handleNewTokenDetection_mono _ w t _ _ _) _
    | exact detMono_set_true (updateDetectionBalance_mono _ _ t _) _
    | (rw [(sweepToken_frame env _ w t _ _ _ .high).2.2.2.2.1]
       first
       | exact detMono_set_true (handleNewTokenDetection_mono _ w t _ _ _) _
       | exact detMono_set_true (updateDetectionBalance_mono _ _ t _) _)

theorem scanSpecificTokens_mono (env : Env) (s : SystemState) (w : String) :
    detMono s.detections (scanSpecificTokens env s w).1.detections := by
  unfold scanSpecificTokens
  dsimp only
  apply foldl_preserves (fun (acc : SystemState × Nat) => detMono s.detections acc.1.detections)
  · intro acc t hacc
    dsimp only
    exact detMono_trans hacc (scanSpecificTokenStep_mono env acc.1 w t)
  · exact detMono_refl _

theorem scanWalletForTokens_mono (env : Env) (s : SystemState) (w : String) :
    detMono s.detections (scanWalletForTokens env s w).1.detections := by
  unfold scanWalletForTokens
  dsimp only
  apply foldl_preserves (fun (acc : SystemState × Nat) => detMono s.detections acc.1.detections)
  · intro acc kt hacc
    dsimp only
    split
    · refine detMono_trans ?_ (checkTradingStatus_mono env _ w kt.1 kt.2.symbol)
      split
      · exact detMono_trans hacc (handleNewTokenDetection_mono _ w kt.1 _ _ _)
      · split
        · split
          · exact hacc
          · exact detMono_trans hacc (updateDetectionBalance_mono _ _ kt.1 _)
        · exact hacc
    · exact hacc
  · exact detMono_refl _

theorem startMonitoring_mono (env : Env) (s : SystemState) (w : String) :
    detMono s.detections (startMonitoring env s w).detections := by
  unfold startMonitoring schedulePeriodicScan
  dsimp only
  have h := scanWalletForTokens_mono env
    { s with monitoringWallets :=
        if s.monitoringWallets.contains (jsToLower w) = true then s.monitoringWallets
        else s.monitoringWallets ++ [jsToLower w] } w
  exact h

theorem probeRegisteredToken_mono (env : Env) (s1 : SystemState) (w t : String)
    (info : TokenInfo) (balance : Rat) :
    detMono s1.detections (probeRegisteredToken env s1 w t info balance).2.1.detections := by
  unfold probeRegisteredToken
  dsimp only
  repeat' split
  all_goals
    first
    | exact detMono_refl _
    | (rw [(sweepToken_frame env _ w t _ _ _ .high).2.2.2.2.1]; exact detMono_refl _)

theorem addAndMonitorSpecificToken_mono (env : Env) (s : SystemState) (w t : String) :
    detMono s.detections (addAndMonitorSpecificToken env s w t).2.1.detections := by
  have hA := addSpecificTokenToMonitor_detections s w t
  unfold addAndMonitorSpecificToken
  dsimp only
  split
  · split
    all_goals
      refine detMono_trans ?_ (probeRegisteredToken_mono env _ w t _ _)
      first
      | exact detMono_cast hA.symm
      | exact detMono_trans (detMono_cast hA.symm) (handleNewTokenDetection_mono _ w t _ _ _)
  · exact detMono_cast hA.symm

theorem checkTradingStatus_already_enabled (env : Env) (s : SystemState)
    (w t sym : String) (d : TokenDetection)
    (hfind : (getTokenDetections s w).find?
      (fun x => jsToLower x.tokenAddress == jsToLower t) = some d)
    (hflag : d.tradingEnabled = true) :
    checkTradingStatus env s w t sym = (s, 0) := by
  unfold checkTradingStatus
  dsimp only
  rw [hfind]
  dsimp only
  rw [hflag]
  simp

theorem scanSpecificTokenStep_no_retrigger (env : Env) (s : SystemState)
    (w t : String) (d : TokenDetection)
    (hfind : (getTokenDetections s w).find?
      (fun x => jsToLower x.tokenAddress == t) = some d)
    (hflag : d.tradingEnabled = true) :
    (scanSpecificTokenStep env s w t).2 = 0 ∧
    (scanSpecificTokenStep env s w t).1.transactions = s.transactions ∧
    (scanSpecificTokenStep env s w t).1.activities = s.activities ∧
    (scanSpecificTokenStep env s w t).1.submittedTransfers = s.submittedTransfers := by
  unfold scanSpecificTokenStep
  dsimp only
  by_cases hk : (List.lookup t s.knownTokens).isNone = true
  · simp only [if_pos hk]
    rw [getTokenDetections_knownTokens, hfind]
    dsimp only
    split
    · rw [hflag]
      simp only [Bool.not_true, Bool.false_and, Bool.false_eq_true, if_false]
      exact ⟨trivial, rfl, rfl, rfl⟩
    · exact ⟨rfl, rfl, rfl, rfl⟩
  · simp only [if_neg hk]
    rw [hfind]
    dsimp only
    split
    · rw [hflag]
      simp only [Bool.not_true, Bool.false_and, Bool.false_eq_true, if_false]
      exact ⟨trivial, rfl, rfl, rfl⟩
    · exact ⟨rfl, rfl, rfl, rfl⟩

/-- C2: the `tradingEnabled` flag of a detection record is monotone under
every engine operation — `checkTradingStatus`, the per-token body of
`scanSpecificTokens` and the whole `scanSpecificTokens` and
`scanWalletForTokens` scans, `startMonitoring` and `stopMonitoring`,
`addAndMonitorSpecificToken` and `addSpecificTokenToMonitor`,
`schedulePeriodicScan`, `handleNewTokenDetection`, the balance update,
`sweepToken`, `manualSweepToken` and `emergencyStop`: a record whose flag
is true keeps a record with the same id and the flag still true.  And a
scan that observes the flag already true re-triggers nothing —
`checkTradingStatus` returns the state unchanged with zero `sweepToken`
invocations, and the `scanSpecificTokens` body makes zero `sweepToken`
invocations and performs only balance bookkeeping (no transaction, no
activity, no submission). -/
theorem tradingEnabled_monotone (env : Env) (s : SystemState)
    (walletAddress tokenAddress tokenSymbol tokenName : String)
    (balance : Rat) (urgency : Urgency) (id : Nat) :
    detMono s.detections
      (checkTradingStatus env s walletAddress tokenAddress tokenSymbol).1.detections ∧
    detMono s.detections
      (scanSpecificTokenStep env s walletAddress tokenAddress).1.detections ∧
    detMono s.detections (scanSpecificTokens env s walletAddress).1.detections ∧
    detMono s.detections (scanWalletForTokens env s walletAddress).1.detections ∧
    detMono s.detections (startMonitoring env s walletAddress).detections ∧
    detMono s.detections (stopMonitoring s walletAddress).detections ∧
    detMono s.detections
      (addAndMonitorSpecificToken env s walletAddress tokenAddress).2.1.detections ∧
    detMono s.detections (addSpecificTokenToMonitor s walletAddress tokenAddress).detections ∧
    detMono s.detections (schedulePeriodicScan s walletAddress).detections ∧
    detMono s.detections
      (handleNewTokenDetection s walletAddress tokenAddress tokenName tokenSymbol
        balance).detections ∧
    detMono s.detections (updateDetectionBalance s id tokenAddress balance).detections ∧
    detMono s.detections
      (sweepToken env s walletAddress tokenAddress tokenSymbol tokenName balance
        urgency).2.detections ∧
    (∀ s2, manualSweepToken s walletAddress tokenAddress = Except.ok s2 →
      detMono s.detections s2.detections) ∧
    (∀ wOpt : Option String, detMono s.detections (emergencyStop s wOpt).detections) ∧
    (∀ d, (getTokenDetections s walletAddress).find?
        (fun x => jsToLower x.tokenAddress == jsToLower tokenAddress) = some d →
      d.tradingEnabled = true →
      checkTradingStatus env s walletAddress tokenAddress tokenSymbol = (s, 0)) ∧
    (∀ d, (getTokenDetections s walletAddress).find?
        (fun x => jsToLower x.tokenAddress == tokenAddress) = some d →
      d.tradingEnabled = true →
      (scanSpecificTokenStep env s walletAddress tokenAddress).2 = 0 ∧
      (scanSpecificTokenStep env s walletAddress tokenAddress).1.transactions = s.transactions ∧
      (scanSpecificTokenStep env s walletAddress tokenAddress).1.activities = s.activities ∧
      (scanSpecificTokenStep env s walletAddress tokenAddress).1.submittedTransfers =
        s.submittedTransfers) := by
  refine ⟨checkTradingStatus_mono env s _ _ _,
    scanSpecificTokenStep_mono env s _ _,
    scanSpecificTokens_mono env s _,
    scanWalletForTokens_mono env s _,
    startMonitoring_mono env s _,
    detMono_refl _,
    addAndMonitorSpecificToken_mono env s _ _,
    detMono_cast (addSpecificTokenToMonitor_detections s _ _).symm,
    detMono_refl _,
    handleNewTokenDetection_mono s _ _ _ _ _,
    updateDetectionBalance_mono s _ _ _,
    ?_, ?_, ?_, ?_, ?_⟩
  · rw [(sweepToken_frame env s walletAddress tokenAddress tokenSymbol tokenName balance
      urgency).2.2.2.2.1]
    exact detMono_refl _
  · intro s2 h
    unfold manualSweepToken at h
    split at h
    · exact Except.noConfusion h
    · injection h with h2
      subst h2
      exact detMono_refl _
  · intro wOpt
    cases wOpt <;> exact detMono_refl _
  · intro d hfind hflag
    exact checkTradingStatus_already_enabled env s _ _ _ d hfind hflag
  · intro d hfind hflag
    exact scanSpecificTokenStep_no_retrigger env s _ _ d hfind hflag

/-- A detection whose flag is already true, in a configured state. -/
def enabledDetection : TokenDetection := { sampleDetection with tradingEnabled := true }

/-- A state with one already-transferable detection. -/
def enabledState : SystemState := { sampleState with detections := [enabledDetection] }

/-- C2 witness: at a concrete state with an already-true flag, the scan
observes the flag, leaves the state unchanged and invokes no sweep. -/
theorem tradingEnabled_monotone_witness :
    (getTokenDetections enabledState "0xwallet").find?
        (fun x => jsToLower x.tokenAddress == jsToLower "0xtoken") = some enabledDetection ∧
    enabledDetection.tradingEnabled = true ∧
    checkTradingStatus zeroEnv enabledState "0xwallet" "0xtoken" "TKN" = (enabledState, 0) ∧
    (scanSpecificTokenStep zeroEnv enabledState "0xwallet" "0xtoken").2 = 0 ∧
    detMono enabledState.detections
      (startMonitoring zeroEnv enabledState "0xwallet").detections := by
  obtain ⟨m1, m2, m3, m4, m5, m6, m7, m8, m9, m10, m11, m12, m13, m14, h15, h16⟩ :=
    tradingEnabled_monotone zeroEnv enabledState "0xwallet" "0xtoken" "TKN" "Token" 5
      Urgency.high 0
  exact ⟨rfl, rfl, h15 enabledDetection rfl rfl, (h16 enabledDetection rfl rfl).1, m5⟩

/-! ## C9: addAndMonitorSpecificToken -/

@[simp] theorem addSpecificTokenToMonitor_walletConfigs (s : SystemState) (w t : String) :
    (addSpecificTokenToMonitor s w t).walletConfigs = s.walletConfigs := by
  unfold addSpecificTokenToMonitor
  dsimp only
  split <;> rfl

theorem probeRegisteredToken_fst (env : Env) (s1 : SystemState) (w t : String)
    (info : TokenInfo) (balance : Rat) :
    (probeRegisteredToken env s1 w t info balance).1 = true := by
  unfold probeRegisteredToken
  dsimp only
  repeat' split
  all_goals rfl

theorem probeRegisteredToken_count (env : Env) (s1 : SystemState) (w t : String)
    (info : TokenInfo) (balance : Rat) (cfg : WalletConfig)
    (hcfg : getWalletConfig s1 w = some cfg) (htr : env.isTradingEnabled t = true) :
    (probeRegisteredToken env s1 w t info balance).2.2 =
      (if cfg.autoSweepEnabled = true then 1 else 0) := by
  unfold probeRegisteredToken
  dsimp only
  rw [htr, if_pos rfl, hcfg]
  by_cases hA : cfg.autoSweepEnabled = true
  · simp only [if_pos hA]
  · simp only [if_neg hA]

theorem probeRegisteredToken_notrading (env : Env) (s1 : SystemState) (w t : String)
    (info : TokenInfo) (balance : Rat) (htr : env.isTradingEnabled t = false) :
    (probeRegisteredToken env s1 w t info balance).2.2 = 0 := by
  unfold probeRegisteredToken
  dsimp only
  rw [htr, if_neg (by simp)]

theorem addAndMonitor_fst (env : Env) (s : SystemState) (w t : String) :
    (addAndMonitorSpecificToken env s w t).1 =
      (if 0 < env.getBalance w t then true else false) := by
  unfold addAndMonitorSpecificToken
  dsimp only
  split
  · rw [probeRegisteredToken_fst]
  · rfl

theorem addAndMonitor_count (env : Env) (s : SystemState) (w t : String)
    (cfg : WalletConfig) (hcfg : getWalletConfig s w = some cfg)
    (hb : 0 < env.getBalance w t) (htr : env.isTradingEnabled t = true) :
    (addAndMonitorSpecificToken env s w t).2.2 =
      (if cfg.autoSweepEnabled = true then 1 else 0) := by
  unfold addAndMonitorSpecificToken
  dsimp only
  rw [if_pos hb]
  split
  all_goals
    refine probeRegisteredToken_count env _ w t _ _ cfg ?_ htr
    unfold getWalletConfig at hcfg ⊢
    simp only [handleNewTokenDetection, addActivity, addSpecificTokenToMonitor_walletConfigs]
    exact hcfg

theorem addAndMonitor_notrading (env : Env) (s : SystemState) (w t : String)
    (htr : env.isTradingEnabled t = false) :
    (addAndMonitorSpecificToken env s w t).2.2 = 0 := by
  unfold addAndMonitorSpecificToken
  dsimp only
  by_cases hb : 0 < env.getBalance w t
  · rw [if_pos hb]
    split
    all_goals rw [probeRegisteredToken_notrading env _ w t _ _ htr]
  · rw [if_neg hb]

/-- C9: `addAndMonitorSpecificToken` returns true exactly when the probed
balance is positive (false on zero balance); and when the balance is
positive and transferability is already true at probe time it invokes
`sweepToken` exactly once if the wallet configuration has automated
sweeping enabled and zero times if disabled, and never when
transferability probes false. -/
theorem addAndMonitorSpecificToken_spec (env : Env) (s : SystemState)
    (walletAddress tokenAddress : String) (cfg : WalletConfig)
    (hcfg : getWalletConfig s walletAddress = some cfg) :
    ((addAndMonitorSpecificToken env s walletAddress tokenAddress).1 = true ↔
      0 < env.getBalance walletAddress tokenAddress) ∧
    (0 < env.getBalance walletAddress tokenAddress →
      env.isTradingEnabled tokenAddress = true →
      ((cfg.autoSweepEnabled = true →
         (addAndMonitorSpecificToken env s walletAddress tokenAddress).2.2 = 1) ∧
       (cfg.autoSweepEnabled = false →
         (addAndMonitorSpecificToken env s walletAddress tokenAddress).2.2 = 0))) ∧
    (env.isTradingEnabled tokenAddress = false →
      (addAndMonitorSpecificToken env s walletAddress tokenAddress).2.2 = 0) := by
  refine ⟨?_, ?_, ?_⟩
  · rw [addAndMonitor_fst env s walletAddress tokenAddress]
    by_cases hb : 0 < env.getBalance walletAddress tokenAddress <;> simp [hb]
  · intro hb htr
    have hc := addAndMonitor_count env s walletAddress tokenAddress cfg hcfg hb htr
    exact ⟨fun hauto => by rw [hc, if_pos hauto],
      fun hauto => by rw [hc, if_neg (by simp [hauto])]⟩
  · intro htr
    exact addAndMonitor_notrading env s walletAddress tokenAddress htr

/-- An environment in which the probed balance is 5 and every token already
probes transferable. -/
def liveEnv : Env :=
  { zeroEnv with getBalance := fun _ _ => 5, isTradingEnabled := fun _ => true }

/-- C9 witness: probing a token with positive balance and transferability
already true, in a wallet with automated sweeping enabled, returns true and
invokes exactly one sweep. -/
theorem addAndMonitorSpecificToken_spec_witness :
    getWalletConfig sampleState "0xwallet" = some sampleConfig ∧
    (0 : Rat) < liveEnv.getBalance "0xwallet" "0xtoken" ∧
    liveEnv.isTradingEnabled "0xtoken" = true ∧
    sampleConfig.autoSweepEnabled = true ∧
    (addAndMonitorSpecificToken liveEnv sampleState "0xwallet" "0xtoken").1 = true ∧
    (addAndMonitorSpecificToken liveEnv sampleState "0xwallet" "0xtoken").2.2 = 1 := by
  have h := addAndMonitorSpecificToken_spec liveEnv sampleState "0xwallet" "0xtoken"
    sampleConfig (by decide)
  have hb : (0 : Rat) < liveEnv.getBalance "0xwallet" "0xtoken" := by norm_num [liveEnv, zeroEnv]
  exact ⟨by decide, hb, rfl, rfl, h.1.mpr hb, (h.2.1 hb rfl).1 rfl⟩

end TokenWatcher
